import Mathlib

/-!
Shallow embedding of the calculus-explorer core (classifier, answer lookup,
answer validator) and proofs about it.

JavaScript strings are modelled as `List Char`.  The regex-based string
operations of the source are translated operation by operation:

* `.toLowerCase()`                        → `toLowerStr` (maps `Char.toLower`)
* `.replace(/\s+/g, '')`, `.replace(/\s/g, '')` → `stripWs`
* `.trim()`                               → `trimJs`
* `.replace(/\+c$/, '')`                  → `stripSuffixIf "+c"`
* `.replace(/\+constant$/, '')`           → `stripSuffixIf "+constant"`
* `.replace(/\*/g, '')`                   → `stripStars`
* `.replace(/\^1/g, '')`                  → `stripCaretOne` (left-to-right,
  non-overlapping, continuing after each match, as a global regex replace does)
* `.replace` of the anchored regex `^` `-` by `''` → `stripLeadingMinus`
* `.replace(/\d+/, '1')`                  → `replaceFirstDigits` (first maximal
  digit run only: the regex has no `g` flag)
* `.replace(/lit/, 'rep')`                → `replaceFirst` (first occurrence)
* `.includes(s)`                          → `containsList`
-/

/-- The character class of the JavaScript `\s` regex escape (also the set
trimmed by `String.prototype.trim`). -/
def isJsWhitespace (c : Char) : Bool :=
  c = ' ' || c = '\t' || c = '\n' || c = '\r' ||
  c.toNat = 11 || c.toNat = 12 || c.toNat = 160 || c.toNat = 5760 ||
  (8192 ≤ c.toNat && c.toNat ≤ 8202) ||
  c.toNat = 8232 || c.toNat = 8233 || c.toNat = 8239 || c.toNat = 8287 ||
  c.toNat = 12288 || c.toNat = 65279

/-- Model of `s.toLowerCase()`. -/
def toLowerStr (l : List Char) : List Char :=
  l.map Char.toLower

/-- Model of `s.replace(/\s+/g, '')` (and `s.replace(/\s/g, '')`): removes
every whitespace character. -/
def stripWs (l : List Char) : List Char :=
  l.filter (fun c => !isJsWhitespace c)

/-- Model of `s.trim()`: strip whitespace at both ends. -/
def trimJs (l : List Char) : List Char :=
  ((l.dropWhile isJsWhitespace).reverse.dropWhile isJsWhitespace).reverse

/-- Tests whether `l` starts with the literal `pat`. -/
def startsWithList : List Char → List Char → Bool
  | _, [] => true
  | [], _ :: _ => false
  | c :: l, p :: ps => c = p && startsWithList l ps

/-- Tests whether `l` ends with the literal `pat`. -/
def endsWithList (l pat : List Char) : Bool :=
  startsWithList l.reverse pat.reverse

/-- Model of `l.includes(pat)`: `pat` occurs as a contiguous substring of `l`. -/
def containsList (l pat : List Char) : Bool :=
  match l with
  | [] => startsWithList [] pat
  | _ :: rest => startsWithList l pat || containsList rest pat

/-- Model of `s.replace(/pat$/, '')` for a literal `pat`: strip one trailing
occurrence, if present. -/
def stripSuffixIf (pat l : List Char) : List Char :=
  if endsWithList l pat then l.take (l.length - pat.length) else l

/-- Model of `s.replace(/\*/g, '')`. -/
def stripStars (l : List Char) : List Char :=
  l.filter (fun c => c ≠ '*')

/-- Model of `s.replace(/\^1/g, '')`: remove all occurrences of the two-character
substring `^1`, scanning left to right and continuing after each match. -/
def stripCaretOne : List Char → List Char
  | [] => []
  | [c] => [c]
  | c :: d :: r =>
    if c = '^' ∧ d = '1' then stripCaretOne r
    else c :: stripCaretOne (d :: r)

/-- Model of `s.replace` of the anchored regex `^` `-` by the empty string:
drop one leading minus sign, if present. -/
def stripLeadingMinus : List Char → List Char
  | '-' :: r => r
  | l => l

/-- Model of `s.replace(/pat/, rep)` for literal `pat`: replace the first occurrence
(no `g` flag).  If `pat` does not occur, the string is unchanged. -/
def replaceFirst (pat rep : List Char) : List Char → List Char
  | [] => if startsWithList [] pat then rep else []
  | c :: rest =>
    if startsWithList (c :: rest) pat then rep ++ (c :: rest).drop pat.length
    else c :: replaceFirst pat rep rest

/-- Model of `s.replace(/\d+/, '1')`: replace the first maximal run of decimal digits
by the single character `1`. -/
def replaceFirstDigits : List Char → List Char
  | [] => []
  | c :: rest =>
    if c.isDigit then '1' :: rest.dropWhile Char.isDigit
    else c :: replaceFirstDigits rest

/-!
The polynomial regular expressions of the classifier.

The full pattern `^[+-]?\d*x?\^?\d*([+-]\d*x?\^?\d*)*$` is matched greedily;
greedy matching is equivalent to backtracking here because the sub-patterns
consume characters from disjoint alphabets (digits, `x`, `^`, signs), so no
backtracking can succeed where the greedy parse fails.
-/

/-- Consume an optional leading `x`. -/
def afterX : List Char → List Char
  | 'x' :: r => r
  | l => l

/-- Consume an optional leading `^`. -/
def afterCaret : List Char → List Char
  | '^' :: r => r
  | l => l

/-- Consume one monomial `\d*x?\^?\d*` and return the rest of the string. -/
def monomialRest (l : List Char) : List Char :=
  (afterCaret (afterX (l.dropWhile Char.isDigit))).dropWhile Char.isDigit

/-- Match the tail `([+-]\d*x?\^?\d*)*$` of the polynomial pattern, with an
explicit fuel argument so the recursion is structural.  Each loop iteration
consumes at least the sign character, so `monomialRest` never lengthens the
string and fuel `l.length` (as supplied by `polyRest`) is always sufficient:
the `0, _ :: _` arm is unreachable from `polyRest`. -/
def polyRestFuel : Nat → List Char → Bool
  | _, [] => true
  | 0, _ :: _ => false
  | fuel + 1, c :: r =>
    if c = '+' || c = '-' then polyRestFuel fuel (monomialRest r) else false

/-- Match the tail `([+-]\d*x?\^?\d*)*$` of the polynomial pattern. -/
def polyRest (l : List Char) : Bool :=
  polyRestFuel l.length l

/-- Consume an optional leading sign (`[+-]?`). -/
def dropSign : List Char → List Char
  | '+' :: r => r
  | '-' :: r => r
  | l => l

/-- The regex `^[+-]?\d*x?\^?\d*([+-]\d*x?\^?\d*)*$` (the `power` pattern of
`TECHNIQUE_DATA` and the third disjunct of the polynomial test in
`determineTechnique`). -/
def matchPolyRegex (f : List Char) : Bool :=
  polyRest (monomialRest (dropSign f))

/-- The regex `^x\^?\d*$` (first disjunct of the polynomial test). -/
def matchXPow : List Char → Bool
  | 'x' :: '^' :: r => r.all Char.isDigit
  | 'x' :: r => r.all Char.isDigit
  | _ => false

/-- The regex `^\d*x\^?\d*$` (second disjunct of the polynomial test). -/
def matchCoefXPow (f : List Char) : Bool :=
  matchXPow (f.dropWhile Char.isDigit)

/-!  Data model: classification results and validation verdicts.

JavaScript objects carry string-valued tags (`technique`, `type`, `feedback`,
difficulty levels); those strings are kept verbatim as `List Char` values.
The `attempts`, `maxAttempts` and `hasMoreAttempts` fields are absent from the
object returned on the empty-input branch of `validateAnswer`, so they are
modelled as `Option` fields defaulting to `none`. -/

structure ClassificationResult where
  technique : List Char
  description : List Char
  difficulty : List Char
deriving DecidableEq

structure Verdict where
  isValid : Bool
  isCorrect : Bool
  type : List Char
  message : List Char
  feedback : List Char
  attempts : Option Nat := none
  maxAttempts : Option Nat := none
  hasMoreAttempts : Option Bool := none
deriving DecidableEq

structure PartResult where
  hasPartCredit : Bool
  message : List Char
deriving DecidableEq

/-!  The `AnswerValidator` class (model file variant).

The `normalizeAnswer` chain is identical in the model file and in the bundled
application file, so it is defined once and shared. -/

namespace AnswerValidator

/-- Value of `this.maxAttempts` set in the constructor. -/
def maxAttempts : Nat := 3

/-- Model of `normalizeAnswer(answer)`: lowercase, strip all whitespace, strip one
trailing `+c`, strip one trailing `+constant`, strip all `*`, strip all
`^1`. -/
def normalizeAnswer (answer : List Char) : List Char :=
  stripCaretOne (stripStars (stripSuffixIf (("+constant").toList)
    (stripSuffixIf (("+c").toList) (stripWs (toLowerStr answer)))))

/-- Model of `isEquivalentAnswer(user, correct)`: a fixed list of textual rewrites of
the user string, each compared with the correct string. -/
def isEquivalentAnswer (user correct : List Char) : Bool :=
  let equivalents : List (List Char × List Char) :=
    [(user, correct),
     (replaceFirst (("x^2/2").toList) (("x^2/2").toList) user, correct),
     (replaceFirst (("/2*x^2").toList) (("x^2/2").toList) user, correct),
     (replaceFirst (("0.5x^2").toList) (("x^2/2").toList) user, correct)]
  equivalents.any (fun p => p.1 == p.2)

/-- Model of `checkPartialCredit(user, correct)`: missing constant, then sign error,
then wrong coefficient; first hit wins. -/
def checkPartialCredit (user correct : List Char) : PartResult :=
  if user ++ ['c'] = correct ∨ user = correct ++ ['c'] then
    { hasPartCredit := true,
      message := ("Almost! Don\x27t forget the constant of integration (+C).").toList }
  else if user = stripLeadingMinus correct ∨ user = '-' :: correct then
    { hasPartCredit := true,
      message := ("Close! Check your signs - there might be a sign error.").toList }
  else if replaceFirstDigits user = replaceFirstDigits correct then
    { hasPartCredit := true,
      message := ("The form is right, but check your coefficient.").toList }
  else
    { hasPartCredit := false, message := [] }

/-- Model of `checkAnswer(userAnswer, correctAnswer)`: exact match, equivalent form,
partial credit, otherwise incorrect. -/
def checkAnswer (userAnswer correctAnswer : List Char) : Verdict :=
  let normalizedUser := normalizeAnswer userAnswer
  let normalizedCorrect := normalizeAnswer correctAnswer
  if normalizedUser = normalizedCorrect then
    { isValid := true, isCorrect := true, type := ("exact").toList,
      message := ("Perfect! Your answer is exactly correct.").toList,
      feedback := ("success").toList }
  else if isEquivalentAnswer normalizedUser normalizedCorrect then
    { isValid := true, isCorrect := true, type := ("equivalent").toList,
      message := ("Correct! Your answer is mathematically equivalent.").toList,
      feedback := ("success").toList }
  else if (checkPartialCredit normalizedUser normalizedCorrect).hasPartCredit then
    { isValid := true, isCorrect := false, type := ("partial").toList,
      message := (checkPartialCredit normalizedUser normalizedCorrect).message,
      feedback := ("warning").toList }
  else
    { isValid := true, isCorrect := false, type := ("incorrect").toList,
      message := ("Not quite right. Check your work and try again!").toList,
      feedback := ("error").toList }

/-- Model of `validateAnswer(userAnswer, correctAnswer, attempts)`: empty check, then
`checkAnswer` with the attempt bookkeeping fields added onto the result. -/
def validateAnswer (userAnswer correctAnswer : List Char) (attempts : Nat) : Verdict :=
  if (trimJs userAnswer).isEmpty then
    { isValid := false, isCorrect := false, type := ("empty").toList,
      message := ("Please enter your answer first!").toList,
      feedback := ("error").toList }
  else
    { checkAnswer userAnswer correctAnswer with
      attempts := some attempts,
      maxAttempts := some maxAttempts,
      hasMoreAttempts := some (decide (attempts < maxAttempts)) }

end AnswerValidator

/-!  A model of JavaScript property reads on plain object literals.

Reading `obj[k]` on an object literal does not stop at the literal's own
entries: a key that is not an own property is looked up along the prototype
chain, and every plain literal inherits the members of `Object.prototype`
(`constructor`, `toString`, `__proto__`, ...).  All of those inherited
members are functions or objects, hence truthy.  Keys that are neither own
properties nor inherited names read as `undefined` (falsy). -/

/-- Property names every plain object literal inherits from
`Object.prototype`. -/
def objectProtoKeys : List (List Char) :=
  [("constructor").toList, ("hasOwnProperty").toList, ("isPrototypeOf").toList,
   ("propertyIsEnumerable").toList, ("toLocaleString").toList, ("toString").toList,
   ("valueOf").toList, ("__defineGetter__").toList, ("__defineSetter__").toList,
   ("__lookupGetter__").toList, ("__lookupSetter__").toList, ("__proto__").toList]

/-- Result of reading property `k` on a plain object literal whose own
entries are string-valued: the own string, a truthy member inherited from
`Object.prototype`, or `undefined`. -/
inductive PropRead where
  | ownStr : List Char → PropRead
  | inheritedMember : List Char → PropRead
  | undef : PropRead
deriving DecidableEq

/-- Model of the property read `obj[k]` on a plain object literal with own
string-valued entries `own`. -/
def readProp (own : List (List Char × List Char)) (k : List Char) : PropRead :=
  match List.lookup k own with
  | some v => PropRead.ownStr v
  | none =>
    if k ∈ objectProtoKeys then PropRead.inheritedMember k else PropRead.undef

/-- Observable outcome of `calculateCorrectAnswer`: a string is returned, a
truthy non-string member inherited from `Object.prototype` is returned, or a
`TypeError` is thrown (reading `techniqueData.answers[f]` when
`techniqueData.answers` is `undefined`). -/
inductive LookupOutcome where
  | value : List Char → LookupOutcome
  | protoValue : List Char → LookupOutcome
  | typeError : LookupOutcome
deriving DecidableEq

/-!  The bundled application file: `CONFIG`, `TECHNIQUE_DATA`, the table-driven
`IntegrationProblem.determineTechnique` / `calculateCorrectAnswer`, and its
`AnswerValidator` (exact / partial / incorrect, no equivalence step). -/

namespace App

/-- Value of `CONFIG.MAX_ATTEMPTS`. -/
def MAX_ATTEMPTS : Nat := 3

/-- Table `TECHNIQUE_DATA.power.answers`. -/
def powerAnswers : List (List Char × List Char) :=
  [(("x").toList, ("x^2/2").toList),
   (("x^2").toList, ("x^3/3").toList),
   (("x^3").toList, ("x^4/4").toList),
   (("1").toList, ("x").toList),
   (("2x").toList, ("x^2").toList),
   (("3x^2").toList, ("x^3").toList)]

/-- Table `TECHNIQUE_DATA.trig.answers`. -/
def trigAnswers : List (List Char × List Char) :=
  [(("sin(x)").toList, ("-cos(x)").toList),
   (("cos(x)").toList, ("sin(x)").toList),
   (("tan(x)").toList, ("-ln|cos(x)|").toList)]

/-- Table `TECHNIQUE_DATA.exponential.answers`. -/
def exponentialAnswers : List (List Char × List Char) :=
  [(("e^x").toList, ("e^x").toList),
   (("2e^x").toList, ("2e^x").toList)]

/-- Table `TECHNIQUE_DATA.logarithmic.answers`. -/
def logarithmicAnswers : List (List Char × List Char) :=
  [(("1/x").toList, ("ln|x|").toList)]

/-- The own keys of the `TECHNIQUE_DATA` object literal, in insertion
order. -/
def techniqueTags : List (List Char) :=
  [("power").toList, ("trig").toList, ("exponential").toList,
   ("logarithmic").toList, ("substitution").toList]

/-- Own entries of `TECHNIQUE_DATA[technique].answers` for each of the five
technique tags; the `substitution` table is the empty literal `{}` (which
still inherits the `Object.prototype` members).  Only consulted for the five
own tags — for any other `technique` string the record read itself does not
yield an answers table (see `calculateCorrectAnswer`). -/
def answersFor (technique : List Char) : List (List Char × List Char) :=
  if technique = ("power").toList then powerAnswers
  else if technique = ("trig").toList then trigAnswers
  else if technique = ("exponential").toList then exponentialAnswers
  else if technique = ("logarithmic").toList then logarithmicAnswers
  else []

/-- Model of `IntegrationProblem.determineTechnique(func)`: lowercase and strip
whitespace, then test the `TECHNIQUE_DATA` patterns in insertion order
(power, trig, exponential, logarithmic), skipping `substitution`; fall back
to `substitution` when no pattern matches. -/
def determineTechnique (func : List Char) : ClassificationResult :=
  let f := stripWs (toLowerStr func)
  if matchPolyRegex f then
    { technique := ("power").toList,
      description := ("This is a polynomial function. Use the power rule.").toList,
      difficulty := ("Easy").toList }
  else if containsList f (("sin(").toList) || containsList f (("cos(").toList) ||
      containsList f (("tan(").toList) then
    { technique := ("trig").toList,
      description := ("This involves trigonometric functions. Use basic trig integration rules.").toList,
      difficulty := ("Medium").toList }
  else if containsList f (("e^").toList) then
    { technique := ("exponential").toList,
      description := ("This is an exponential function. Use exponential integration rules.").toList,
      difficulty := ("Medium").toList }
  else if containsList f (("1/x").toList) || containsList f (("ln").toList) then
    { technique := ("logarithmic").toList,
      description := ("This involves logarithmic functions or 1/x.").toList,
      difficulty := ("Medium").toList }
  else
    { technique := ("substitution").toList,
      description := ("Try u-substitution or analyze the function structure.").toList,
      difficulty := ("Medium").toList }

/-- The sentinel returned when no table entry matches. -/
def sentinelAnswer : List Char :=
  ("Answer depends on technique used").toList

/-- Model of `IntegrationProblem.calculateCorrectAnswer(func, technique)`,
including the prototype-chain behaviour of the two property reads in
`TECHNIQUE_DATA[technique]` and `techniqueData.answers[f]`:

* `technique` an own tag: `techniqueData` is the technique record (truthy),
  and `techniqueData.answers[f]` is read on the answers literal.  An own key
  maps to a non-empty string (truthy) which is returned verbatim; a key
  inherited from `Object.prototype` (after lowercasing, only `constructor`
  and `__proto__` are reachable) reads as the inherited member, which is
  truthy and therefore returned; any other key reads as `undefined` (falsy)
  and the sentinel is returned.
* `technique` a name inherited from `Object.prototype`: `techniqueData` is
  the inherited member (truthy), its `.answers` is `undefined`, and the read
  `undefined[f]` throws a `TypeError`.
* any other `technique`: `techniqueData` is `undefined`, the guard
  short-circuits, and the sentinel is returned. -/
def calculateCorrectAnswer (func technique : List Char) : LookupOutcome :=
  let f := stripWs (toLowerStr func)
  if technique ∈ techniqueTags then
    match readProp (answersFor technique) f with
    | PropRead.ownStr a => LookupOutcome.value a
    | PropRead.inheritedMember k => LookupOutcome.protoValue k
    | PropRead.undef => LookupOutcome.value sentinelAnswer
  else if technique ∈ objectProtoKeys then LookupOutcome.typeError
  else LookupOutcome.value sentinelAnswer

/-- Model of `AnswerValidator.checkPartialCredit` of the bundled file: only the
missing-constant heuristic. -/
def checkPartialCredit (user correct : List Char) : PartResult :=
  if user ++ ['c'] = correct ∨ user = correct ++ ['c'] then
    { hasPartCredit := true,
      message := ("Almost! Don\x27t forget the constant of integration (+C).").toList }
  else
    { hasPartCredit := false, message := [] }

/-- Model of `AnswerValidator.checkAnswer` of the bundled file: exact match, partial
credit, otherwise incorrect (no equivalence step in this variant). -/
def checkAnswer (userAnswer correctAnswer : List Char) : Verdict :=
  let normalizedUser := AnswerValidator.normalizeAnswer userAnswer
  let normalizedCorrect := AnswerValidator.normalizeAnswer correctAnswer
  if normalizedUser = normalizedCorrect then
    { isValid := true, isCorrect := true, type := ("exact").toList,
      message := ("Perfect! Your answer is exactly correct.").toList,
      feedback := ("success").toList }
  else if (checkPartialCredit normalizedUser normalizedCorrect).hasPartCredit then
    { isValid := true, isCorrect := false, type := ("partial").toList,
      message := (checkPartialCredit normalizedUser normalizedCorrect).message,
      feedback := ("warning").toList }
  else
    { isValid := true, isCorrect := false, type := ("incorrect").toList,
      message := ("Not quite right. Check your work and try again!").toList,
      feedback := ("error").toList }

/-- Model of `AnswerValidator.validateAnswer` of the bundled file. -/
def validateAnswer (userAnswer correctAnswer : List Char) (attempts : Nat) : Verdict :=
  if (trimJs userAnswer).isEmpty then
    { isValid := false, isCorrect := false, type := ("empty").toList,
      message := ("Please enter your answer first!").toList,
      feedback := ("error").toList }
  else
    { checkAnswer userAnswer correctAnswer with
      attempts := some attempts,
      maxAttempts := some MAX_ATTEMPTS,
      hasMoreAttempts := some (decide (attempts < MAX_ATTEMPTS)) }

end App

/-!  The `IntegrationProblem` class of the models directory (`MathUtils.js` source file):
the if-chain classifier with the parts / partial-fractions branches. -/

namespace IntegrationProblem

/-- Model of `determineTechnique(func)` of the models file: lowercase and strip
whitespace, then the if-chain: polynomial (three regexes), trig (`sin`,
`cos`, `tan` as plain substrings), exponential/logarithmic (`e^` or `ln`,
split on `*` into parts vs substitution), rational (`/`), fallback
substitution. -/
def determineTechnique (func : List Char) : ClassificationResult :=
  let f := stripWs (toLowerStr func)
  if matchXPow f || matchCoefXPow f || matchPolyRegex f then
    { technique := ("power").toList,
      description := ("This is a polynomial function. Use the power rule.").toList,
      difficulty := ("Easy").toList }
  else if containsList f (("sin").toList) || containsList f (("cos").toList) ||
      containsList f (("tan").toList) then
    { technique := ("trig").toList,
      description := ("This contains trigonometric functions.").toList,
      difficulty := ("Medium").toList }
  else if containsList f (("e^").toList) || containsList f (("ln").toList) then
    if containsList f (("*").toList) then
      { technique := ("parts").toList,
        description := ("This looks like it needs integration by parts.").toList,
        difficulty := ("Hard").toList }
    else
      { technique := ("substitution").toList,
        description := ("This might benefit from u-substitution.").toList,
        difficulty := ("Medium").toList }
  else if containsList f (("/").toList) || containsList f (("1/(").toList) then
    { technique := ("partial").toList,
      description := ("This rational function may need partial fractions.").toList,
      difficulty := ("Hard").toList }
  else
    { technique := ("substitution").toList,
      description := ("Try u-substitution or analyze the function structure.").toList,
      difficulty := ("Medium").toList }

/-- Model of `calculateCorrectAnswer(func, technique)` of the models file: hardcoded
if-chains keyed on the technique tag for power and trig, then substring
tests `e^` / `ln` on the input itself for the exponential and logarithmic
answers, then the sentinel. -/
def calculateCorrectAnswer (func technique : List Char) : List Char :=
  let f := stripWs (toLowerStr func)
  if technique = ("power").toList then
    if f = ("x").toList then ("x^2/2").toList
    else if f = ("x^2").toList then ("x^3/3").toList
    else if f = ("x^3").toList then ("x^4/4").toList
    else if f = ("1").toList then ("x").toList
    else if f = ("2x").toList then ("x^2").toList
    else if f = ("3x^2").toList then ("x^3").toList
    else App.sentinelAnswer
  else if technique = ("trig").toList then
    if f = ("sin(x)").toList then ("-cos(x)").toList
    else if f = ("cos(x)").toList then ("sin(x)").toList
    else if f = ("tan(x)").toList then ("-ln|cos(x)|").toList
    else App.sentinelAnswer
  else if containsList f (("e^").toList) then
    if f = ("e^x").toList then ("e^x").toList
    else if f = ("2e^x").toList then ("2e^x").toList
    else App.sentinelAnswer
  else if containsList f (("ln").toList) then
    if f = ("1/x").toList then ("ln|x|").toList
    else App.sentinelAnswer
  else App.sentinelAnswer

end IntegrationProblem

/-- All exact-match entries of the technique answer tables
(`TECHNIQUE_DATA.*.answers`; the `substitution` table is empty). -/
def allAnswerEntries : List (List Char × List Char) :=
  App.powerAnswers ++ App.trigAnswers ++ App.exponentialAnswers ++ App.logarithmicAnswers

/-!  Supporting lemmas. -/

/-- Converting a valid code point to a character and back is the identity. -/
theorem char_toNat_ofNat {n : Nat} (h : n.isValidChar) : (Char.ofNat n).toNat = n := by
  rw [Char.ofNat, dif_pos h]
  rfl

/-- ASCII lowercasing is idempotent: a character produced by `Char.toLower`
is left unchanged by a second application. -/
theorem char_toLower_toLower (c : Char) : c.toLower.toLower = c.toLower := by
  simp only [Char.toLower]
  by_cases h : c.toNat ≥ 65 ∧ c.toNat ≤ 90
  · rw [if_pos h]
    have hv : Nat.isValidChar (c.toNat + 32) := Or.inl (by omega)
    have ht : (Char.ofNat (c.toNat + 32)).toNat = c.toNat + 32 := char_toNat_ofNat hv
    rw [if_neg]
    rw [ht]
    omega
  · rw [if_neg h, if_neg h]

/-- Removing `^1` substrings only removes characters. -/
theorem stripCaretOne_sublist : ∀ l : List Char, List.Sublist (stripCaretOne l) l := by
  intro l
  induction l using stripCaretOne.induct with
  | case1 => simp [stripCaretOne]
  | case2 c => simp [stripCaretOne]
  | case3 c d r h ih =>
    simp only [stripCaretOne, if_pos h]
    exact ih.trans ((List.sublist_cons_self d r).trans (List.sublist_cons_self c (d :: r)))
  | case4 c d r h ih =>
    simp only [stripCaretOne, if_neg h]
    exact ih.cons₂ c

/-- On a string with no `^1` substring, the `^1`-removal pass is the
identity. -/
theorem stripCaretOne_eq_self : ∀ {l : List Char},
    containsList l ['^', '1'] = false → stripCaretOne l = l := by
  intro l
  induction l using stripCaretOne.induct with
  | case1 => intro _; rfl
  | case2 c => intro _; rfl
  | case3 c d r h ih =>
    intro hc
    obtain ⟨rfl, rfl⟩ := h
    simp [containsList, startsWithList] at hc
  | case4 c d r h ih =>
    intro hc
    have hcu := hc
    simp only [containsList, Bool.or_eq_false_iff] at hcu
    have hc2 : containsList (d :: r) ['^', '1'] = false := by
      simp only [containsList, Bool.or_eq_false_iff]
      exact hcu.2
    simp only [stripCaretOne, if_neg h]
    rw [ih hc2]

/-- Stripping a trailing literal only removes characters. -/
theorem stripSuffixIf_sublist (pat l : List Char) : List.Sublist (stripSuffixIf pat l) l := by
  unfold stripSuffixIf
  split
  · exact List.take_sublist _ _
  · exact List.Sublist.refl _

/-- Every normalized answer is obtained from the whitespace-stripped
lowercased input by only removing characters. -/
theorem normalizeAnswer_sublist_stripWs (s : List Char) :
    List.Sublist (AnswerValidator.normalizeAnswer s) (stripWs (toLowerStr s)) := by
  unfold AnswerValidator.normalizeAnswer stripStars
  exact (stripCaretOne_sublist _).trans ((List.filter_sublist _).trans
    ((stripSuffixIf_sublist _ _).trans (stripSuffixIf_sublist _ _)))

/-- Every normalized answer is obtained from the lowercased input by only
removing characters. -/
theorem normalizeAnswer_sublist_toLower (s : List Char) :
    List.Sublist (AnswerValidator.normalizeAnswer s) (toLowerStr s) := by
  exact (normalizeAnswer_sublist_stripWs s).trans (List.filter_sublist _)

/-- Every normalized answer is obtained from the star-stripping stage by only
removing characters. -/
theorem normalizeAnswer_sublist_stripStars (s : List Char) :
    List.Sublist (AnswerValidator.normalizeAnswer s)
      (stripStars (stripSuffixIf (("+constant").toList)
        (stripSuffixIf (("+c").toList) (stripWs (toLowerStr s))))) := by
  unfold AnswerValidator.normalizeAnswer
  exact stripCaretOne_sublist _

/-- Lowercasing is the identity on a string all of whose characters are
fixed by `Char.toLower`. -/
theorem toLowerStr_eq_self {l : List Char} (h : ∀ c ∈ l, c.toLower = c) :
    toLowerStr l = l := by
  unfold toLowerStr
  induction l with
  | nil => rfl
  | cons a t ih =>
    simp only [List.map_cons]
    rw [h a (by simp), ih (fun c hc => h c (by simp [hc]))]

/-- When the sign-error condition holds, `checkPartialCredit` reports
partial credit (either through the missing-constant branch tested before it,
or through the sign branch itself). -/
theorem checkPartialCredit_of_sign (u c : List Char)
    (hsign : u = stripLeadingMinus c ∨ u = '-' :: c) :
    (AnswerValidator.checkPartialCredit u c).hasPartCredit = true := by
  unfold AnswerValidator.checkPartialCredit
  by_cases ha : (u ++ ['c'] = c ∨ u = c ++ ['c'])
  · rw [if_pos ha]
  · rw [if_neg ha, if_pos hsign]

/-!  The claims. -/

/-- Claim C1, counterexample: `classify("")` does not return the fallback
`substitution` / `Medium` classification.  In both classifier variants the
polynomial pattern `^[+-]?\d*x?\^?\d*([+-]\d*x?\^?\d*)*$`, in which every
part is optional, matches the empty string, so the first branch fires. -/
theorem C1_counterexample :
    (App.determineTechnique (("").toList)).technique ≠ ("substitution").toList ∧
    (App.determineTechnique (("").toList)).difficulty ≠ ("Medium").toList ∧
    (IntegrationProblem.determineTechnique (("").toList)).technique ≠ ("substitution").toList ∧
    (IntegrationProblem.determineTechnique (("").toList)).difficulty ≠ ("Medium").toList := by
  decide

/-- Claim C1 (amended): for the empty input string, classification does not
crash (both classifiers are total functions) and returns technique `power`
with difficulty `Easy` and the polynomial description, because the empty
string matches the polynomial pattern. -/
theorem C1_empty_input_power :
    matchPolyRegex (("").toList) = true ∧
    App.determineTechnique (("").toList) =
      { technique := ("power").toList,
        description := ("This is a polynomial function. Use the power rule.").toList,
        difficulty := ("Easy").toList } ∧
    IntegrationProblem.determineTechnique (("").toList) =
      { technique := ("power").toList,
        description := ("This is a polynomial function. Use the power rule.").toList,
        difficulty := ("Easy").toList } := by
  decide

/-- Claim C2, counterexample: normalization is not idempotent.  On the input
`+c+c` the first pass strips only the final `+c`, leaving `+c`, and a second
pass strips that too. -/
theorem C2_counterexample :
    AnswerValidator.normalizeAnswer (AnswerValidator.normalizeAnswer (("+c+c").toList)) ≠
      AnswerValidator.normalizeAnswer (("+c+c").toList) := by
  decide

/-- Claim C2 (amended): normalization is idempotent on every string whose
normalized form does not itself end in `+c` or `+constant` and does not
contain the substring `^1` (the stripping of trailing constants and of `^1`
can expose new occurrences; the lowercase, whitespace and `*` passes
cannot). -/
theorem C2_normalize_idempotent_on_stable (s : List Char)
    (h1 : endsWithList (AnswerValidator.normalizeAnswer s) (("+c").toList) = false)
    (h2 : endsWithList (AnswerValidator.normalizeAnswer s) (("+constant").toList) = false)
    (h3 : containsList (AnswerValidator.normalizeAnswer s) (("^1").toList) = false) :
    AnswerValidator.normalizeAnswer (AnswerValidator.normalizeAnswer s) =
      AnswerValidator.normalizeAnswer s := by
  have hlower : toLowerStr (AnswerValidator.normalizeAnswer s) = AnswerValidator.normalizeAnswer s := by
    refine toLowerStr_eq_self (fun c hc => ?_)
    have hmem : c ∈ toLowerStr s := ((normalizeAnswer_sublist_toLower s).subset) hc
    obtain ⟨c0, _, rfl⟩ := List.mem_map.1 hmem
    exact char_toLower_toLower c0
  have hws : stripWs (AnswerValidator.normalizeAnswer s) = AnswerValidator.normalizeAnswer s := by
    refine List.filter_eq_self.2 (fun c hc => ?_)
    have hmem := ((normalizeAnswer_sublist_stripWs s).subset) hc
    have hp := (List.mem_filter.1 hmem).2
    simpa using hp
  have hstars : stripStars (AnswerValidator.normalizeAnswer s) = AnswerValidator.normalizeAnswer s := by
    refine List.filter_eq_self.2 (fun c hc => ?_)
    have hmem := ((normalizeAnswer_sublist_stripStars s).subset) hc
    have hp := (List.mem_filter.1 hmem).2
    simpa using hp
  have hsc : stripSuffixIf (("+c").toList) (AnswerValidator.normalizeAnswer s) =
      AnswerValidator.normalizeAnswer s := by
    unfold stripSuffixIf
    rw [h1]
    simp
  have hsconst : stripSuffixIf (("+constant").toList) (AnswerValidator.normalizeAnswer s) =
      AnswerValidator.normalizeAnswer s := by
    unfold stripSuffixIf
    rw [h2]
    simp
  have hcaret : stripCaretOne (AnswerValidator.normalizeAnswer s) = AnswerValidator.normalizeAnswer s := by
    have h3e : containsList (AnswerValidator.normalizeAnswer s) ['^', '1'] = false := h3
    exact stripCaretOne_eq_self h3e
  show stripCaretOne (stripStars (stripSuffixIf (("+constant").toList)
    (stripSuffixIf (("+c").toList) (stripWs (toLowerStr (AnswerValidator.normalizeAnswer s)))))) =
      AnswerValidator.normalizeAnswer s
  rw [hlower, hws, hsc, hsconst, hstars, hcaret]

/-- Witness for claim C2 at the concrete input `X^2/2 + C`, whose normal form
`x^2/2` satisfies the three stability hypotheses. -/
theorem C2_witness :
    endsWithList (AnswerValidator.normalizeAnswer (("X^2/2 + C").toList)) (("+c").toList) = false ∧
    endsWithList (AnswerValidator.normalizeAnswer (("X^2/2 + C").toList)) (("+constant").toList) = false ∧
    containsList (AnswerValidator.normalizeAnswer (("X^2/2 + C").toList)) (("^1").toList) = false ∧
    AnswerValidator.normalizeAnswer (AnswerValidator.normalizeAnswer (("X^2/2 + C").toList)) =
      AnswerValidator.normalizeAnswer (("X^2/2 + C").toList) :=
  ⟨by decide, by decide, by decide,
   C2_normalize_idempotent_on_stable (("X^2/2 + C").toList) (by decide) (by decide) (by decide)⟩

/-- Claim C3: the classifiers test patterns in a fixed priority order and
return the first match.  The input `sin(x)*e^x` satisfies both the
trigonometric signal and the exponential (and, in the models variant, the
by-parts) signal, and with trig tested before exponential both variants
resolve it to technique `trig` with difficulty `Medium`. -/
theorem C3_priority_first_match_trig :
    containsList (("sin(x)*e^x").toList) (("sin(").toList) = true ∧
    containsList (("sin(x)*e^x").toList) (("e^").toList) = true ∧
    containsList (("sin(x)*e^x").toList) (("*").toList) = true ∧
    App.determineTechnique (("sin(x)*e^x").toList) =
      { technique := ("trig").toList,
        description := ("This involves trigonometric functions. Use basic trig integration rules.").toList,
        difficulty := ("Medium").toList } ∧
    IntegrationProblem.determineTechnique (("sin(x)*e^x").toList) =
      { technique := ("trig").toList,
        description := ("This contains trigonometric functions.").toList,
        difficulty := ("Medium").toList } := by
  decide

/-- Claim C4, counterexample: the verdict returned for an empty user answer
carries no attempt bookkeeping at all — `validateAnswer` returns the empty
verdict object before the `attempts` / `maxAttempts` / `hasMoreAttempts`
fields are assigned, so the claim fails for attemptNumber 1. -/
theorem C4_counterexample :
    (AnswerValidator.validateAnswer (("").toList) (("x^2/2").toList) 1).attempts = none ∧
    (AnswerValidator.validateAnswer (("").toList) (("x^2/2").toList) 1).attempts ≠ some 1 ∧
    (AnswerValidator.validateAnswer (("").toList) (("x^2/2").toList) 1).maxAttempts ≠ some 3 := by
  decide

/-- Claim C4 (amended): every verdict returned for a user answer that is
non-empty after trimming carries `attempts` equal to the caller-supplied
attempt number, `maxAttempts = 3`, and `hasMoreAttempts` true exactly when
the attempt number is below 3; the empty-input verdict carries none of these
fields. -/
theorem C4_attempt_fields (u c : List Char) (n : Nat) (h : trimJs u ≠ []) :
    (AnswerValidator.validateAnswer u c n).attempts = some n ∧
    (AnswerValidator.validateAnswer u c n).maxAttempts = some 3 ∧
    (AnswerValidator.validateAnswer u c n).hasMoreAttempts = some (decide (n < 3)) := by
  have hne : (trimJs u).isEmpty = false := by simp [h]
  simp [AnswerValidator.validateAnswer, hne, AnswerValidator.maxAttempts]

/-- Witness for claim C4: `validate("x^2/2", "x^2/2", 3)` has
`hasMoreAttempts = false` since `3 < 3` fails. -/
theorem C4_witness :
    trimJs (("x^2/2").toList) ≠ [] ∧
    (AnswerValidator.validateAnswer (("x^2/2").toList) (("x^2/2").toList) 3).hasMoreAttempts =
      some false :=
  ⟨by decide, (C4_attempt_fields (("x^2/2").toList) (("x^2/2").toList) 3 (by decide)).2.2⟩

/-- Claim C5: for every entry of the technique answer tables, validating the
known answer against itself at attempt 1 yields an `exact` verdict with
`isCorrect = true`. -/
theorem C5_roundtrip_exact :
    ∀ p ∈ allAnswerEntries,
      (AnswerValidator.validateAnswer p.2 p.2 1).type = ("exact").toList ∧
      (AnswerValidator.validateAnswer p.2 p.2 1).isCorrect = true := by
  decide

/-- Witness for claim C5 at the table entry `sin(x) ↦ -cos(x)`. -/
theorem C5_witness :
    ((("sin(x)").toList, ("-cos(x)").toList) ∈ allAnswerEntries) ∧
    (AnswerValidator.validateAnswer (("-cos(x)").toList) (("-cos(x)").toList) 1).type =
      ("exact").toList :=
  ⟨by decide,
   (C5_roundtrip_exact ((("sin(x)").toList, ("-cos(x)").toList)) (by decide)).1⟩

/-- Claim C6: whenever the user answer trims to the empty string, the
verdict is the fixed empty verdict — kind `empty`, invalid, incorrect,
feedback `error`, message asking to enter an answer — for every correct
answer and every attempt number. -/
theorem C6_empty_input_verdict (u c : List Char) (n : Nat) (h : trimJs u = []) :
    AnswerValidator.validateAnswer u c n =
      { isValid := false, isCorrect := false, type := ("empty").toList,
        message := ("Please enter your answer first!").toList,
        feedback := ("error").toList } := by
  simp [AnswerValidator.validateAnswer, h]

/-- Witness for claim C6 at a whitespace-only user answer. -/
theorem C6_witness :
    trimJs (("   ").toList) = [] ∧
    AnswerValidator.validateAnswer (("   ").toList) (("x^2/2").toList) 1 =
      { isValid := false, isCorrect := false, type := ("empty").toList,
        message := ("Please enter your answer first!").toList,
        feedback := ("error").toList } :=
  ⟨by decide, C6_empty_input_verdict (("   ").toList) (("x^2/2").toList) 1 (by decide)⟩

/-- Claim C7: normalization strips a trailing `+C` on both sides before
comparison, so `validate("x^2/2+C", "x^2/2", 1)` and
`validate("x^2/2", "x^2/2+c", 1)` both return `exact` verdicts with
`isCorrect = true`. -/
theorem C7_strip_plus_c_exact :
    (AnswerValidator.validateAnswer (("x^2/2+C").toList) (("x^2/2").toList) 1).type =
      ("exact").toList ∧
    (AnswerValidator.validateAnswer (("x^2/2+C").toList) (("x^2/2").toList) 1).isCorrect = true ∧
    (AnswerValidator.validateAnswer (("x^2/2").toList) (("x^2/2+c").toList) 1).type =
      ("exact").toList ∧
    (AnswerValidator.validateAnswer (("x^2/2").toList) (("x^2/2+c").toList) 1).isCorrect = true := by
  decide

/-- Claim C8, counterexample: the sign-error condition alone does not force a
`partial` verdict.  For `validate("x", "x", 1)` the normalized user answer
equals the normalized correct answer with its (absent) leading minus
stripped, yet the verdict is `exact`, because the exact-match check runs
first. -/
theorem C8_counterexample :
    (AnswerValidator.normalizeAnswer (("x").toList) =
      stripLeadingMinus (AnswerValidator.normalizeAnswer (("x").toList)) ∨
     AnswerValidator.normalizeAnswer (("x").toList) =
      '-' :: AnswerValidator.normalizeAnswer (("x").toList)) ∧
    (AnswerValidator.validateAnswer (("x").toList) (("x").toList) 1).type ≠
      ("partial").toList ∧
    (AnswerValidator.validateAnswer (("x").toList) (("x").toList) 1).type =
      ("exact").toList := by
  decide

/-- Claim C8 (amended): if the user answer is non-empty after trimming, the
exact-match and equivalence checks both fail, and the normalized user answer
equals the normalized correct answer with its leading minus stripped or
equals `-` prepended to the normalized correct answer, then the verdict has
kind `partial`, `isCorrect = false` and feedback `warning`; in particular
`validate("-cos(x)", "cos(x)", 1)` takes this branch. -/
theorem C8_sign_error_verdict (u c : List Char) (n : Nat)
    (hne : trimJs u ≠ [])
    (hneq : AnswerValidator.normalizeAnswer u ≠ AnswerValidator.normalizeAnswer c)
    (heqv : AnswerValidator.isEquivalentAnswer (AnswerValidator.normalizeAnswer u)
      (AnswerValidator.normalizeAnswer c) = false)
    (hsign : AnswerValidator.normalizeAnswer u =
        stripLeadingMinus (AnswerValidator.normalizeAnswer c) ∨
      AnswerValidator.normalizeAnswer u = '-' :: AnswerValidator.normalizeAnswer c) :
    (AnswerValidator.validateAnswer u c n).type = ("partial").toList ∧
    (AnswerValidator.validateAnswer u c n).isCorrect = false ∧
    (AnswerValidator.validateAnswer u c n).feedback = ("warning").toList := by
  have hempty : (trimJs u).isEmpty = false := by simp [hne]
  have hpc := checkPartialCredit_of_sign _ _ hsign
  simp [AnswerValidator.validateAnswer, AnswerValidator.checkAnswer, hempty, hneq, heqv, hpc]

/-- Witness for claim C8 at `validate("-cos(x)", "cos(x)", 1)`: the sign
branch fires and yields a `partial` / not-correct / `warning` verdict. -/
theorem C8_witness :
    trimJs (("-cos(x)").toList) ≠ [] ∧
    (AnswerValidator.validateAnswer (("-cos(x)").toList) (("cos(x)").toList) 1).type =
      ("partial").toList ∧
    (AnswerValidator.validateAnswer (("-cos(x)").toList) (("cos(x)").toList) 1).isCorrect = false :=
  ⟨by decide,
   (C8_sign_error_verdict (("-cos(x)").toList) (("cos(x)").toList) 1
     (by decide) (by decide) (by decide) (by decide)).1,
   (C8_sign_error_verdict (("-cos(x)").toList) (("cos(x)").toList) 1
     (by decide) (by decide) (by decide) (by decide)).2.1⟩

/-- Claim C9, counterexample: the lookup does not return the sentinel for
every miss.  The normalized input `constructor` is not a key of the power
answer table, yet the property read finds the member inherited from
`Object.prototype` — a truthy non-string value that is returned instead of
the sentinel; and a technique string naming an inherited property (such as
`toString`) makes `techniqueData` truthy with `techniqueData.answers`
undefined, so the code throws a `TypeError` instead of returning the
sentinel. -/
theorem C9_counterexample :
    List.lookup (stripWs (toLowerStr (("constructor").toList)))
      (App.answersFor (("power").toList)) = none ∧
    App.calculateCorrectAnswer (("constructor").toList) (("power").toList) ≠
      LookupOutcome.value App.sentinelAnswer ∧
    App.calculateCorrectAnswer (("constructor").toList) (("power").toList) =
      LookupOutcome.protoValue (("constructor").toList) ∧
    App.calculateCorrectAnswer (("x").toList) (("toString").toList) =
      LookupOutcome.typeError := by
  decide

/-- Claim C9 (amended): for each of the five technique tags, the lookup
lowercases the input and strips its whitespace; when the normalized input is
an own key of the technique's answer table the mapped antiderivative string
is returned verbatim, when it instead names a property inherited from
`Object.prototype` the truthy inherited member is returned, and otherwise
the fixed sentinel string `Answer depends on technique used` is returned.
(For a technique string naming an inherited property the code throws a
`TypeError`; for any other non-tag technique string it returns the
sentinel.) -/
theorem C9_answer_lookup (func t : List Char) (ht : t ∈ App.techniqueTags) :
    (∃ a, List.lookup (stripWs (toLowerStr func)) (App.answersFor t) = some a ∧
          App.calculateCorrectAnswer func t = LookupOutcome.value a) ∨
    (List.lookup (stripWs (toLowerStr func)) (App.answersFor t) = none ∧
     stripWs (toLowerStr func) ∈ objectProtoKeys ∧
     App.calculateCorrectAnswer func t =
       LookupOutcome.protoValue (stripWs (toLowerStr func))) ∨
    (List.lookup (stripWs (toLowerStr func)) (App.answersFor t) = none ∧
     stripWs (toLowerStr func) ∉ objectProtoKeys ∧
     App.calculateCorrectAnswer func t = LookupOutcome.value App.sentinelAnswer) := by
  have hcalc : App.calculateCorrectAnswer func t =
      match readProp (App.answersFor t) (stripWs (toLowerStr func)) with
      | PropRead.ownStr a => LookupOutcome.value a
      | PropRead.inheritedMember k => LookupOutcome.protoValue k
      | PropRead.undef => LookupOutcome.value App.sentinelAnswer := by
    unfold App.calculateCorrectAnswer
    rw [if_pos ht]
  rw [hcalc]
  unfold readProp
  cases h : List.lookup (stripWs (toLowerStr func)) (App.answersFor t) with
  | some a => exact Or.inl ⟨a, rfl, rfl⟩
  | none =>
    by_cases hp : stripWs (toLowerStr func) ∈ objectProtoKeys
    · exact Or.inr (Or.inl ⟨rfl, hp, by rw [if_pos hp]⟩)
    · exact Or.inr (Or.inr ⟨rfl, hp, by rw [if_neg hp]⟩)

/-- Witness for claim C9 at the technique tag `trig` and the input
`SIN (x)`, whose normalized form `sin(x)` is an own key of the trig table. -/
theorem C9_witness :
    (∃ a, List.lookup (stripWs (toLowerStr (("SIN (x)").toList)))
            (App.answersFor (("trig").toList)) = some a ∧
          App.calculateCorrectAnswer (("SIN (x)").toList) (("trig").toList) =
            LookupOutcome.value a) ∨
    (List.lookup (stripWs (toLowerStr (("SIN (x)").toList)))
        (App.answersFor (("trig").toList)) = none ∧
     stripWs (toLowerStr (("SIN (x)").toList)) ∈ objectProtoKeys ∧
     App.calculateCorrectAnswer (("SIN (x)").toList) (("trig").toList) =
       LookupOutcome.protoValue (stripWs (toLowerStr (("SIN (x)").toList)))) ∨
    (List.lookup (stripWs (toLowerStr (("SIN (x)").toList)))
        (App.answersFor (("trig").toList)) = none ∧
     stripWs (toLowerStr (("SIN (x)").toList)) ∉ objectProtoKeys ∧
     App.calculateCorrectAnswer (("SIN (x)").toList) (("trig").toList) =
       LookupOutcome.value App.sentinelAnswer) :=
  C9_answer_lookup (("SIN (x)").toList) (("trig").toList) (by decide)

/-- Claim C10: in both validator variants, `isValid` of the returned verdict
is true exactly when the user answer is non-empty after trimming — every
comparison outcome (`exact`, `equivalent`, `partial`, `incorrect`) sets
`isValid = true`, and only the empty-input branch sets it to false. -/
theorem C10_isValid_nonempty (u c : List Char) (n : Nat) :
    (AnswerValidator.validateAnswer u c n).isValid = !(trimJs u).isEmpty ∧
    (App.validateAnswer u c n).isValid = !(trimJs u).isEmpty := by
  have h1 : ∀ a b : List Char, (AnswerValidator.checkAnswer a b).isValid = true := by
    intro a b
    simp only [AnswerValidator.checkAnswer]
    split_ifs <;> rfl
  have h2 : ∀ a b : List Char, (App.checkAnswer a b).isValid = true := by
    intro a b
    simp only [App.checkAnswer]
    split_ifs <;> rfl
  cases he : (trimJs u).isEmpty <;>
    simp [AnswerValidator.validateAnswer, App.validateAnswer, he, h1, h2]
